import Mathlib

/-!
Verification development for the lazydjango demo project.

The repository consists of three Python source files:
  - `demo-project/mysite/settings.py`: process configuration resolved from
    environment variables with literal defaults;
  - `demo-project/blog/models.py`: Post, Comment, Tag schema declarations;
  - `demo-project/shop/models.py`: Product, Order schema declarations.

We shallowly embed the configuration loader as a total function from an
environment (a partial map from variable names to strings) to a flat record
of resolved settings, and the ORM-derived data layer as explicit operations
on a database state, reflecting the semantics the declarations request from
the storage layer (cascade deletes, uniqueness checks, foreign-key checks,
`auto_now_add` timestamps, varchar length limits and decimal precision).
-/

namespace LazyDjango

/-- A process environment: a partial map from variable names to values,
mirroring `os.environ`. -/
def Env : Type := String → Option String

/-- `os.getenv(name, default)`: the variable's value when set, otherwise the
literal default. -/
def getenv (env : Env) (name default_ : String) : String :=
  (env name).getD default_

/-- The environment with no variables set. -/
def emptyEnv : Env := fun _ => none

/-- The resolved settings of `mysite/settings.py`, flattened: the
`DATABASES['default']` entry, the `CACHES['default']` entry and the
module-level constants.  `cacheHOST` and `cachePORT` are the two `os.getenv`
subexpressions of the `LOCATION` f-string. -/
structure Settings where
  DEBUG : Bool
  ALLOWED_HOSTS : List String
  INSTALLED_APPS : List String
  dbENGINE : String
  dbNAME : String
  dbUSER : String
  dbPASSWORD : String
  dbHOST : String
  dbPORT : String
  CONN_MAX_AGE : Nat
  connect_timeout : Nat
  cacheBACKEND : String
  cacheHOST : String
  cachePORT : String
  LOCATION : String
  CLIENT_CLASS : String
  SOCKET_CONNECT_TIMEOUT : Nat
  SOCKET_TIMEOUT : Nat
  SECRET_KEY : String
  DEFAULT_AUTO_FIELD : String
  deriving Repr, DecidableEq

/-- Evaluation of `mysite/settings.py` in a given process environment.
Every field is resolved exactly as the source resolves it; in particular
`SECRET_KEY` is the module's string literal. -/
def resolveSettings (env : Env) : Settings where
  DEBUG := true
  ALLOWED_HOSTS := ["*"]
  INSTALLED_APPS :=
    ["django.contrib.contenttypes", "django.contrib.auth", "blog", "shop"]
  dbENGINE := "django.db.backends.postgresql"
  dbNAME := getenv env "POSTGRES_DB" "demodb"
  dbUSER := getenv env "POSTGRES_USER" "demo_user"
  dbPASSWORD := getenv env "POSTGRES_PASSWORD" "demo_password"
  dbHOST := getenv env "POSTGRES_HOST" "localhost"
  dbPORT := getenv env "POSTGRES_PORT" "5432"
  CONN_MAX_AGE := 60
  connect_timeout := 10
  cacheBACKEND := "django_redis.cache.RedisCache"
  cacheHOST := getenv env "REDIS_HOST" "localhost"
  cachePORT := getenv env "REDIS_PORT" "6379"
  LOCATION :=
    "redis://" ++ getenv env "REDIS_HOST" "localhost" ++ ":"
      ++ getenv env "REDIS_PORT" "6379" ++ "/1"
  CLIENT_CLASS := "django_redis.client.DefaultClient"
  SOCKET_CONNECT_TIMEOUT := 5
  SOCKET_TIMEOUT := 5
  SECRET_KEY := "demo-secret-key-not-for-production"
  DEFAULT_AUTO_FIELD := "django.db.models.BigAutoField"

/-- A derived configuration value `f` reads the environment variable `name`:
whenever the variable is set, the resolved value is the variable's value. -/
def readsVar (f : Env → String) (name : String) : Prop :=
  ∀ (env : Env) (v : String), env name = some v → f env = v

/-- The environment that sets `POSTGRES_HOST` to `db.internal` and nothing
else. -/
def envHostOnly : Env :=
  fun name => if name = "POSTGRES_HOST" then some "db.internal" else none

end LazyDjango

namespace LazyDjango

/-- Claim C1: with no environment variables set, the configuration resolves
the database settings to name "demodb", user "demo_user", password
"demo_password", host "localhost", port "5432" and the cache settings to
host "localhost" and port "6379"; and in every environment the fixed
connection tunables resolve to database connect timeout 10, cache socket
connect and read timeouts 5 each, and database connection max age 60. -/
theorem c1_defaults_and_tunables :
    (resolveSettings emptyEnv).dbNAME = "demodb" ∧
    (resolveSettings emptyEnv).dbUSER = "demo_user" ∧
    (resolveSettings emptyEnv).dbPASSWORD = "demo_password" ∧
    (resolveSettings emptyEnv).dbHOST = "localhost" ∧
    (resolveSettings emptyEnv).dbPORT = "5432" ∧
    (resolveSettings emptyEnv).cacheHOST = "localhost" ∧
    (resolveSettings emptyEnv).cachePORT = "6379" ∧
    ∀ env : Env,
      (resolveSettings env).connect_timeout = 10 ∧
      (resolveSettings env).SOCKET_CONNECT_TIMEOUT = 5 ∧
      (resolveSettings env).SOCKET_TIMEOUT = 5 ∧
      (resolveSettings env).CONN_MAX_AGE = 60 := by
  exact ⟨rfl, rfl, rfl, rfl, rfl, rfl, rfl, fun env => ⟨rfl, rfl, rfl, rfl⟩⟩

/-- Claim C2, counterexample: the resolved secret key is not determined by
reading any environment variable.  For any candidate variable name, the
environment that sets every variable to "x" resolves the secret key to the
hard-coded literal, not to "x". -/
theorem c2_secret_key_not_from_env :
    ¬ ∃ name : String,
        readsVar (fun env => (resolveSettings env).SECRET_KEY) name := by
  rintro ⟨name, h⟩
  have hx := h (fun _ => some "x") "x" rfl
  simp [resolveSettings] at hx

/-- Claim C2 as amended: the secret key is the static string literal
"demo-secret-key-not-for-production", identical in every process
environment; it is not resolved from environment variables. -/
theorem c2_secret_key_literal :
    ∀ env : Env,
      (resolveSettings env).SECRET_KEY = "demo-secret-key-not-for-production" :=
  fun _ => rfl

/-- Claim C6: when the environment sets `POSTGRES_HOST` to "db.internal" and
nothing else, the database host resolves to "db.internal" while every other
configuration field keeps its default value. -/
theorem c6_host_only_frame :
    (resolveSettings envHostOnly).dbHOST = "db.internal" ∧
    (resolveSettings envHostOnly).dbNAME = "demodb" ∧
    (resolveSettings envHostOnly).dbUSER = "demo_user" ∧
    (resolveSettings envHostOnly).dbPASSWORD = "demo_password" ∧
    (resolveSettings envHostOnly).dbPORT = "5432" ∧
    (resolveSettings envHostOnly).cacheHOST = "localhost" ∧
    (resolveSettings envHostOnly).cachePORT = "6379" ∧
    (resolveSettings envHostOnly).LOCATION = "redis://localhost:6379/1" ∧
    (resolveSettings envHostOnly).connect_timeout = 10 ∧
    (resolveSettings envHostOnly).SOCKET_CONNECT_TIMEOUT = 5 ∧
    (resolveSettings envHostOnly).SOCKET_TIMEOUT = 5 ∧
    (resolveSettings envHostOnly).CONN_MAX_AGE = 60 := by
  refine ⟨?_, ?_, ?_, ?_, ?_, ?_, ?_, ?_, rfl, rfl, rfl, rfl⟩ <;> decide

/-- Claim C8: for every environment, each configuration variable that is
absent resolves to its literal default; resolution is a total function of
the environment (`resolveSettings : Env → Settings`) with no error path. -/
theorem c8_absent_vars_get_defaults (env : Env) :
    (env "POSTGRES_DB" = none → (resolveSettings env).dbNAME = "demodb") ∧
    (env "POSTGRES_USER" = none → (resolveSettings env).dbUSER = "demo_user") ∧
    (env "POSTGRES_PASSWORD" = none →
      (resolveSettings env).dbPASSWORD = "demo_password") ∧
    (env "POSTGRES_HOST" = none → (resolveSettings env).dbHOST = "localhost") ∧
    (env "POSTGRES_PORT" = none → (resolveSettings env).dbPORT = "5432") ∧
    (env "REDIS_HOST" = none → (resolveSettings env).cacheHOST = "localhost") ∧
    (env "REDIS_PORT" = none → (resolveSettings env).cachePORT = "6379") := by
  refine ⟨?_, ?_, ?_, ?_, ?_, ?_, ?_⟩ <;>
    intro h <;> simp [resolveSettings, getenv, h]

/-- Witness for C8 at the empty environment: all seven defaults are
substituted. -/
theorem c8_absent_vars_get_defaults_witness :
    (resolveSettings emptyEnv).dbNAME = "demodb" ∧
    (resolveSettings emptyEnv).dbUSER = "demo_user" ∧
    (resolveSettings emptyEnv).dbPASSWORD = "demo_password" ∧
    (resolveSettings emptyEnv).dbHOST = "localhost" ∧
    (resolveSettings emptyEnv).dbPORT = "5432" ∧
    (resolveSettings emptyEnv).cacheHOST = "localhost" ∧
    (resolveSettings emptyEnv).cachePORT = "6379" := by
  have h := c8_absent_vars_get_defaults emptyEnv
  exact ⟨h.1 rfl, h.2.1 rfl, h.2.2.1 rfl, h.2.2.2.1 rfl, h.2.2.2.2.1 rfl,
    h.2.2.2.2.2.1 rfl, h.2.2.2.2.2.2 rfl⟩

/-- Claim C10: in every environment, the resolved cache location is exactly
"redis://" followed by the resolved cache host, ":", the resolved cache port
and "/1"; the URL scheme and the logical database index 1 are fixed
literals, not configurable by any environment variable. -/
theorem c10_cache_location_shape (env : Env) :
    (resolveSettings env).LOCATION =
      "redis://" ++ (resolveSettings env).cacheHOST ++ ":"
        ++ (resolveSettings env).cachePORT ++ "/1" :=
  rfl

end LazyDjango

namespace LazyDjango

/-- A row of the `blog.Post` table (`blog/models.py`). `published_date` is a
`DateTimeField(auto_now_add=True)`: timestamps are modelled as naturals. -/
structure Post where
  title : String
  content : String
  author : String
  published_date : Nat
  is_published : Bool
  deriving Repr, DecidableEq

/-- A row of the `blog.Comment` table: `post` is a non-nullable foreign key
(the id of the referenced Post), `on_delete=CASCADE`. -/
structure Comment where
  post : Nat
  author : String
  content : String
  deriving Repr, DecidableEq

/-- A row of the `blog.Tag` table: `name` is unique.  The `posts`
many-to-many field lives in the join table of the database state. -/
structure Tag where
  name : String
  deriving Repr, DecidableEq

/-- A row of the `shop.Product` table.  `price` is a
`DecimalField(max_digits=10, decimal_places=2)`, modelled as an integer
count of hundredths. -/
structure Product where
  name : String
  description : String
  price : Int
  stock : Int
  deriving Repr, DecidableEq

/-- A row of the `shop.Order` table: `total` as hundredths, `order_date`
an `auto_now_add` timestamp, `product` a non-nullable cascade foreign key. -/
structure Order where
  customer_name : String
  order_date : Nat
  total : Int
  product : Nat
  deriving Repr, DecidableEq

/-- The database state generated by the two model files: one association
list per table keyed by primary key, the `Tag.posts` many-to-many join
table as (tag id, post id) pairs, and the next fresh primary key. -/
structure DB where
  posts : List (Nat × Post)
  comments : List (Nat × Comment)
  tags : List (Nat × Tag)
  tagPosts : List (Nat × Nat)
  products : List (Nat × Product)
  orders : List (Nat × Order)
  nextId : Nat
  deriving Repr, DecidableEq

/-- The empty database. -/
def emptyDB : DB := ⟨[], [], [], [], [], [], 0⟩

/-- Errors the storage layer raises on the declared constraints: duplicate
unique value, missing foreign-key target, or a value outside a declared
column type (varchar length, decimal precision). -/
inductive DbError where
  | uniqueViolation
  | fkViolation
  | valueError
  deriving Repr, DecidableEq

/-- Does the table hold a row with primary key `i`? -/
def anyId (l : List (Nat × α)) (i : Nat) : Bool :=
  l.any fun x => x.1 == i

/-- A value fits `DecimalField(max_digits=10, decimal_places=2)`: at most
ten digits in total, two of them fractional, so at most 10^10 - 1
hundredths in absolute value.  No sign constraint is declared. -/
def decimalOk (v : Int) : Bool :=
  v.natAbs < 10 ^ 10

/-- INSERT into `blog_post`.  The caller supplies no `published_date`:
`auto_now_add` fills it with the current time `now`. -/
def insertPost (db : DB) (now : Nat) (title content author : String)
    (is_published : Bool) : Except DbError DB :=
  if title.length ≤ 200 ∧ author.length ≤ 100 then
    Except.ok { db with
      posts := db.posts ++ [(db.nextId, ⟨title, content, author, now, is_published⟩)],
      nextId := db.nextId + 1 }
  else Except.error DbError.valueError

/-- UPDATE of a Post: rewrites the editable fields of row `id`; the
`auto_now_add` field `published_date` is not among the assignable columns
and is kept. -/
def updatePost (db : DB) (id : Nat) (title content author : String)
    (is_published : Bool) : Except DbError DB :=
  if title.length ≤ 200 ∧ author.length ≤ 100 then
    Except.ok { db with
      posts := db.posts.map fun x =>
        if x.1 == id then
          (x.1, ⟨title, content, author, x.2.published_date, is_published⟩)
        else x }
  else Except.error DbError.valueError

/-- DELETE of a Post: the row goes, every Comment referencing it goes
(`on_delete=CASCADE`), and its pairs leave the many-to-many join table. -/
def deletePost (db : DB) (id : Nat) : DB :=
  { db with
    posts := db.posts.filter fun x => x.1 != id,
    comments := db.comments.filter fun x => x.2.post != id,
    tagPosts := db.tagPosts.filter fun x => x.2 != id }

/-- INSERT into `blog_comment`: the non-nullable foreign key must point at
an existing Post. -/
def insertComment (db : DB) (postId : Nat) (author content : String) :
    Except DbError DB :=
  if author.length ≤ 100 then
    if anyId db.posts postId then
      Except.ok { db with
        comments := db.comments ++ [(db.nextId, ⟨postId, author, content⟩)],
        nextId := db.nextId + 1 }
    else Except.error DbError.fkViolation
  else Except.error DbError.valueError

/-- UPDATE of a Comment, foreign key included; the new target must exist. -/
def updateComment (db : DB) (id postId : Nat) (author content : String) :
    Except DbError DB :=
  if author.length ≤ 100 then
    if anyId db.posts postId then
      Except.ok { db with
        comments := db.comments.map fun x =>
          if x.1 == id then (x.1, ⟨postId, author, content⟩) else x }
    else Except.error DbError.fkViolation
  else Except.error DbError.valueError

/-- DELETE of a Comment. -/
def deleteComment (db : DB) (id : Nat) : DB :=
  { db with comments := db.comments.filter fun x => x.1 != id }

/-- INSERT into `blog_tag`: `name` is `unique=True`, so a duplicate name is
a uniqueness violation. -/
def insertTag (db : DB) (name : String) : Except DbError DB :=
  if name.length ≤ 50 then
    if db.tags.any fun x => x.2.name == name then
      Except.error DbError.uniqueViolation
    else
      Except.ok { db with
        tags := db.tags ++ [(db.nextId, ⟨name⟩)],
        nextId := db.nextId + 1 }
  else Except.error DbError.valueError

/-- UPDATE of a Tag's name: unique against every other row. -/
def updateTag (db : DB) (id : Nat) (name : String) : Except DbError DB :=
  if name.length ≤ 50 then
    if db.tags.any fun x => x.1 != id && x.2.name == name then
      Except.error DbError.uniqueViolation
    else
      Except.ok { db with
        tags := db.tags.map fun x =>
          if x.1 == id then (x.1, ⟨name⟩) else x }
  else Except.error DbError.valueError

/-- DELETE of a Tag: its join-table pairs go with it. -/
def deleteTag (db : DB) (id : Nat) : DB :=
  { db with
    tags := db.tags.filter fun x => x.1 != id,
    tagPosts := db.tagPosts.filter fun x => x.1 != id }

/-- `tag.posts.add(post)`: both sides must exist; adding an existing pair is
a no-op (the join table has a uniqueness constraint on the pair). -/
def addTagPost (db : DB) (tagId postId : Nat) : Except DbError DB :=
  if anyId db.tags tagId && anyId db.posts postId then
    if db.tagPosts.any fun x => x.1 == tagId && x.2 == postId then
      Except.ok db
    else Except.ok { db with tagPosts := db.tagPosts ++ [(tagId, postId)] }
  else Except.error DbError.fkViolation

/-- `tag.posts.remove(post)`. -/
def removeTagPost (db : DB) (tagId postId : Nat) : DB :=
  { db with
    tagPosts := db.tagPosts.filter fun x => !(x.1 == tagId && x.2 == postId) }

/-- INSERT into `shop_product`: the declared column constraints are the
varchar length and the decimal precision; no sign check is declared. -/
def insertProduct (db : DB) (name description : String) (price stock : Int) :
    Except DbError DB :=
  if name.length ≤ 200 && decimalOk price then
    Except.ok { db with
      products := db.products ++ [(db.nextId, ⟨name, description, price, stock⟩)],
      nextId := db.nextId + 1 }
  else Except.error DbError.valueError

/-- UPDATE of a Product. -/
def updateProduct (db : DB) (id : Nat) (name description : String)
    (price stock : Int) : Except DbError DB :=
  if name.length ≤ 200 && decimalOk price then
    Except.ok { db with
      products := db.products.map fun x =>
        if x.1 == id then (x.1, ⟨name, description, price, stock⟩) else x }
  else Except.error DbError.valueError

/-- DELETE of a Product: every Order referencing it goes
(`on_delete=CASCADE`). -/
def deleteProduct (db : DB) (id : Nat) : DB :=
  { db with
    products := db.products.filter fun x => x.1 != id,
    orders := db.orders.filter fun x => x.2.product != id }

/-- INSERT into `shop_order`: `order_date` is filled by `auto_now_add`;
the non-nullable foreign key must point at an existing Product. -/
def insertOrder (db : DB) (now : Nat) (customer_name : String) (total : Int)
    (productId : Nat) : Except DbError DB :=
  if customer_name.length ≤ 200 && decimalOk total then
    if anyId db.products productId then
      Except.ok { db with
        orders := db.orders ++ [(db.nextId, ⟨customer_name, now, total, productId⟩)],
        nextId := db.nextId + 1 }
    else Except.error DbError.fkViolation
  else Except.error DbError.valueError

/-- UPDATE of an Order: the `auto_now_add` field `order_date` is kept; the
new foreign-key target must exist. -/
def updateOrder (db : DB) (id : Nat) (customer_name : String) (total : Int)
    (productId : Nat) : Except DbError DB :=
  if customer_name.length ≤ 200 && decimalOk total then
    if anyId db.products productId then
      Except.ok { db with
        orders := db.orders.map fun x =>
          if x.1 == id then
            (x.1, ⟨customer_name, x.2.order_date, total, productId⟩)
          else x }
    else Except.error DbError.fkViolation
  else Except.error DbError.valueError

/-- DELETE of an Order. -/
def deleteOrder (db : DB) (id : Nat) : DB :=
  { db with orders := db.orders.filter fun x => x.1 != id }

/-- The operations the ORM derives from the declarations: create, update
and delete for each of the five models, and management of the many-to-many
join table. -/
inductive Op where
  | insertPost (now : Nat) (title content author : String) (is_published : Bool)
  | updatePost (id : Nat) (title content author : String) (is_published : Bool)
  | deletePost (id : Nat)
  | insertComment (postId : Nat) (author content : String)
  | updateComment (id postId : Nat) (author content : String)
  | deleteComment (id : Nat)
  | insertTag (name : String)
  | updateTag (id : Nat) (name : String)
  | deleteTag (id : Nat)
  | addTagPost (tagId postId : Nat)
  | removeTagPost (tagId postId : Nat)
  | insertProduct (name description : String) (price stock : Int)
  | updateProduct (id : Nat) (name description : String) (price stock : Int)
  | deleteProduct (id : Nat)
  | insertOrder (now : Nat) (customer_name : String) (total : Int) (productId : Nat)
  | updateOrder (id : Nat) (customer_name : String) (total : Int) (productId : Nat)
  | deleteOrder (id : Nat)
  deriving Repr

/-- A failed statement leaves the stored state unchanged. -/
def orKeep (db : DB) : Except DbError DB → DB
  | Except.ok db' => db'
  | Except.error _ => db

/-- One operation against the database. -/
def step (db : DB) : Op → DB
  | Op.insertPost now t c a p => orKeep db (insertPost db now t c a p)
  | Op.updatePost i t c a p => orKeep db (updatePost db i t c a p)
  | Op.deletePost i => deletePost db i
  | Op.insertComment pid a c => orKeep db (insertComment db pid a c)
  | Op.updateComment i pid a c => orKeep db (updateComment db i pid a c)
  | Op.deleteComment i => deleteComment db i
  | Op.insertTag n => orKeep db (insertTag db n)
  | Op.updateTag i n => orKeep db (updateTag db i n)
  | Op.deleteTag i => deleteTag db i
  | Op.addTagPost t p => orKeep db (addTagPost db t p)
  | Op.removeTagPost t p => removeTagPost db t p
  | Op.insertProduct n d pr s => orKeep db (insertProduct db n d pr s)
  | Op.updateProduct i n d pr s => orKeep db (updateProduct db i n d pr s)
  | Op.deleteProduct i => deleteProduct db i
  | Op.insertOrder now c t pid => orKeep db (insertOrder db now c t pid)
  | Op.updateOrder i c t pid => orKeep db (updateOrder db i c t pid)
  | Op.deleteOrder i => deleteOrder db i

/-- Run a sequence of operations from a database state. -/
def run (db : DB) (ops : List Op) : DB :=
  List.foldl step db ops

/-- Referential integrity of the two non-nullable foreign keys: every
Comment's `post` is the id of a stored Post and every Order's `product` is
the id of a stored Product. -/
def Inv (db : DB) : Prop :=
  (∀ c ∈ db.comments, c.2.post ∈ db.posts.map Prod.fst) ∧
  (∀ o ∈ db.orders, o.2.product ∈ db.products.map Prod.fst)

end LazyDjango

namespace LazyDjango

theorem anyId_iff {α : Type} (l : List (Nat × α)) (i : Nat) :
    anyId l i = true ↔ i ∈ l.map Prod.fst := by
  simp [anyId, List.any_eq_true, List.mem_map]

theorem map_fst_update {α : Type} (l : List (Nat × α)) (g : Nat × α → Nat × α)
    (hg : ∀ x, (g x).1 = x.1) :
    (l.map g).map Prod.fst = l.map Prod.fst := by
  induction l with
  | nil => rfl
  | cons x xs ih => simp [hg, ih]

theorem mem_map_fst_filter {α : Type} {l : List (Nat × α)} {i pid : Nat}
    (hi : i ∈ l.map Prod.fst) (hne : i ≠ pid) :
    i ∈ (l.filter fun x => x.1 != pid).map Prod.fst := by
  simp only [List.mem_map, List.mem_filter, bne_iff_ne] at hi ⊢
  obtain ⟨x, hx, hfst⟩ := hi
  exact ⟨x, ⟨hx, by rw [hfst]; exact hne⟩, hfst⟩

theorem inv_orKeep {db : DB} {e : Except DbError DB} (h : Inv db)
    (hok : ∀ db', e = Except.ok db' → Inv db') : Inv (orKeep db e) := by
  cases e with
  | ok db' => exact hok db' rfl
  | error _ => exact h

theorem step_inv (db : DB) (op : Op) (h : Inv db) : Inv (step db op) := by
  obtain ⟨hc, ho⟩ := h
  cases op with
  | insertPost now t c a p =>
      refine inv_orKeep ⟨hc, ho⟩ ?_
      intro db' hdb'
      unfold insertPost at hdb'
      split at hdb'
      · injection hdb' with hdb'
        subst hdb'
        refine ⟨?_, ho⟩
        intro cm hcm
        simp only [List.map_append, List.mem_append]
        exact Or.inl (hc cm hcm)
      · cases hdb'
  | updatePost i t c a p =>
      refine inv_orKeep ⟨hc, ho⟩ ?_
      intro db' hdb'
      unfold updatePost at hdb'
      split at hdb'
      · injection hdb' with hdb'
        subst hdb'
        refine ⟨?_, ho⟩
        intro cm hcm
        dsimp only
        rw [map_fst_update]
        · exact hc cm hcm
        · intro x
          split <;> rfl
      · cases hdb'
  | deletePost i =>
      refine ⟨?_, ho⟩
      intro cm hcm
      simp only [step, deletePost, List.mem_filter, bne_iff_ne] at hcm
      exact mem_map_fst_filter (hc cm hcm.1) hcm.2
  | insertComment pid a c =>
      refine inv_orKeep ⟨hc, ho⟩ ?_
      intro db' hdb'
      unfold insertComment at hdb'
      split at hdb'
      · split at hdb'
        · injection hdb' with hdb'
          subst hdb'
          refine ⟨?_, ho⟩
          intro cm hcm
          simp only [List.mem_append, List.mem_singleton] at hcm
          cases hcm with
          | inl hin => exact hc cm hin
          | inr hnew =>
              subst hnew
              exact (anyId_iff db.posts pid).mp (by assumption)
        · cases hdb'
      · cases hdb'
  | updateComment i pid a c =>
      refine inv_orKeep ⟨hc, ho⟩ ?_
      intro db' hdb'
      unfold updateComment at hdb'
      split at hdb'
      · split at hdb'
        · injection hdb' with hdb'
          subst hdb'
          refine ⟨?_, ho⟩
          intro cm hcm
          simp only [List.mem_map] at hcm
          obtain ⟨x, hx, hgx⟩ := hcm
          subst hgx
          dsimp only
          split
          · exact (anyId_iff db.posts pid).mp (by assumption)
          · exact hc x hx
        · cases hdb'
      · cases hdb'
  | deleteComment i =>
      refine ⟨?_, ho⟩
      intro cm hcm
      simp only [step, deleteComment, List.mem_filter] at hcm
      exact hc cm hcm.1
  | insertTag n =>
      refine inv_orKeep ⟨hc, ho⟩ ?_
      intro db' hdb'
      unfold insertTag at hdb'
      split at hdb'
      · split at hdb'
        · cases hdb'
        · injection hdb' with hdb'
          subst hdb'
          exact ⟨hc, ho⟩
      · cases hdb'
  | updateTag i n =>
      refine inv_orKeep ⟨hc, ho⟩ ?_
      intro db' hdb'
      unfold updateTag at hdb'
      split at hdb'
      · split at hdb'
        · cases hdb'
        · injection hdb' with hdb'
          subst hdb'
          exact ⟨hc, ho⟩
      · cases hdb'
  | deleteTag i => exact ⟨hc, ho⟩
  | addTagPost tg p =>
      refine inv_orKeep ⟨hc, ho⟩ ?_
      intro db' hdb'
      unfold addTagPost at hdb'
      split at hdb'
      · split at hdb'
        · injection hdb' with hdb'
          subst hdb'
          exact ⟨hc, ho⟩
        · injection hdb' with hdb'
          subst hdb'
          exact ⟨hc, ho⟩
      · cases hdb'
  | removeTagPost tg p => exact ⟨hc, ho⟩
  | insertProduct n d pr s =>
      refine inv_orKeep ⟨hc, ho⟩ ?_
      intro db' hdb'
      unfold insertProduct at hdb'
      split at hdb'
      · injection hdb' with hdb'
        subst hdb'
        refine ⟨hc, ?_⟩
        intro od hod
        simp only [List.map_append, List.mem_append]
        exact Or.inl (ho od hod)
      · cases hdb'
  | updateProduct i n d pr s =>
      refine inv_orKeep ⟨hc, ho⟩ ?_
      intro db' hdb'
      unfold updateProduct at hdb'
      split at hdb'
      · injection hdb' with hdb'
        subst hdb'
        refine ⟨hc, ?_⟩
        intro od hod
        dsimp only
        rw [map_fst_update]
        · exact ho od hod
        · intro x
          split <;> rfl
      · cases hdb'
  | deleteProduct i =>
      refine ⟨hc, ?_⟩
      intro od hod
      simp only [step, deleteProduct, List.mem_filter, bne_iff_ne] at hod
      exact mem_map_fst_filter (ho od hod.1) hod.2
  | insertOrder now cn t pid =>
      refine inv_orKeep ⟨hc, ho⟩ ?_
      intro db' hdb'
      unfold insertOrder at hdb'
      split at hdb'
      · split at hdb'
        · injection hdb' with hdb'
          subst hdb'
          refine ⟨hc, ?_⟩
          intro od hod
          simp only [List.mem_append, List.mem_singleton] at hod
          cases hod with
          | inl hin => exact ho od hin
          | inr hnew =>
              subst hnew
              exact (anyId_iff db.products pid).mp (by assumption)
        · cases hdb'
      · cases hdb'
  | updateOrder i cn t pid =>
      refine inv_orKeep ⟨hc, ho⟩ ?_
      intro db' hdb'
      unfold updateOrder at hdb'
      split at hdb'
      · split at hdb'
        · injection hdb' with hdb'
          subst hdb'
          refine ⟨hc, ?_⟩
          intro od hod
          simp only [List.mem_map] at hod
          obtain ⟨x, hx, hgx⟩ := hod
          subst hgx
          dsimp only
          split
          · exact (anyId_iff db.products pid).mp (by assumption)
          · exact ho x hx
        · cases hdb'
      · cases hdb'
  | deleteOrder i =>
      refine ⟨hc, ?_⟩
      intro od hod
      simp only [step, deleteOrder, List.mem_filter] at hod
      exact ho od hod.1

end LazyDjango

namespace LazyDjango

/-- Claim C3: a Post's `published_date` is set exactly once, automatically
at creation time (the INSERT takes no caller-supplied value and stores the
current time), and an UPDATE of a Post never changes it. -/
theorem c3_published_date_set_once :
    (∀ (db : DB) (now : Nat) (t c a : String) (p : Bool) (db' : DB),
        insertPost db now t c a p = Except.ok db' →
        (db.nextId, Post.mk t c a now p) ∈ db'.posts) ∧
    (∀ (db : DB) (id : Nat) (t c a : String) (p : Bool) (db' : DB),
        updatePost db id t c a p = Except.ok db' →
        ∀ (i : Nat) (q : Post), (i, q) ∈ db.posts →
          ∃ q' : Post, (i, q') ∈ db'.posts ∧
            q'.published_date = q.published_date) := by
  constructor
  · intro db now t c a p db' hdb'
    unfold insertPost at hdb'
    split at hdb'
    · injection hdb' with hdb'
      subst hdb'
      simp
    · cases hdb'
  · intro db id t c a p db' hdb'
    unfold updatePost at hdb'
    split at hdb'
    · injection hdb' with hdb'
      subst hdb'
      intro i q hq
      have hm := List.mem_map_of_mem
        (fun x : Nat × Post =>
          if x.1 == id then
            (x.1, Post.mk t c a x.2.published_date p)
          else x) hq
      dsimp only at hm
      by_cases hid : i == id
      · rw [if_pos hid] at hm
        exact ⟨Post.mk t c a q.published_date p, hm, rfl⟩
      · rw [if_neg hid] at hm
        exact ⟨q, hm, rfl⟩
    · cases hdb'

end LazyDjango

namespace LazyDjango

/-- Witness for C3: creating a Post in the empty database stores
`published_date = 5`, and a subsequent update of every editable field
leaves `published_date = 5`. -/
theorem c3_published_date_set_once_witness :
    ((0 : Nat), Post.mk "t" "c" "a" 5 false) ∈
      (DB.mk [(0, Post.mk "t" "c" "a" 5 false)] [] [] [] [] [] 1).posts ∧
    ∃ q' : Post,
      ((0 : Nat), q') ∈
        (DB.mk [(0, Post.mk "t2" "c2" "a2" 5 true)] [] [] [] [] [] 1).posts ∧
      q'.published_date = 5 :=
  ⟨c3_published_date_set_once.1 emptyDB 5 "t" "c" "a" false _ rfl,
   c3_published_date_set_once.2
     (DB.mk [(0, Post.mk "t" "c" "a" 5 false)] [] [] [] [] [] 1)
     0 "t2" "c2" "a2" true _ rfl 0 (Post.mk "t" "c" "a" 5 false)
     (by simp)⟩

/-- Claim C4: deleting a Post removes exactly the Comments referencing it
and exactly its pairs from the Tag join table, besides the Post row itself;
Tag, Product and Order rows are untouched.  Deleting a Product removes
exactly the Orders referencing it besides the Product row itself; Post,
Comment, Tag and join-table rows are untouched. -/
theorem c4_cascade_delete (db : DB) (pid : Nat) :
    (∀ x, x ∈ (deletePost db pid).comments ↔
        x ∈ db.comments ∧ x.2.post ≠ pid) ∧
    (∀ x, x ∈ (deletePost db pid).tagPosts ↔
        x ∈ db.tagPosts ∧ x.2 ≠ pid) ∧
    (∀ x, x ∈ (deletePost db pid).posts ↔ x ∈ db.posts ∧ x.1 ≠ pid) ∧
    (deletePost db pid).tags = db.tags ∧
    (deletePost db pid).products = db.products ∧
    (deletePost db pid).orders = db.orders ∧
    (∀ x, x ∈ (deleteProduct db pid).orders ↔
        x ∈ db.orders ∧ x.2.product ≠ pid) ∧
    (∀ x, x ∈ (deleteProduct db pid).products ↔
        x ∈ db.products ∧ x.1 ≠ pid) ∧
    (deleteProduct db pid).posts = db.posts ∧
    (deleteProduct db pid).comments = db.comments ∧
    (deleteProduct db pid).tags = db.tags ∧
    (deleteProduct db pid).tagPosts = db.tagPosts := by
  refine ⟨?_, ?_, ?_, rfl, rfl, rfl, ?_, ?_, rfl, rfl, rfl, rfl⟩ <;>
    intro x <;>
    simp [deletePost, deleteProduct, List.mem_filter, bne_iff_ne]

/-- Claim C5: inserting a Tag whose name is already stored fails with a
uniqueness violation, and the failed statement leaves the stored state
unchanged.  (A stored name fits the varchar(50) column, hence the length
hypothesis.) -/
theorem c5_tag_name_unique (db : DB) (name : String) (tid : Nat) (tag : Tag)
    (hmem : (tid, tag) ∈ db.tags) (hname : tag.name = name)
    (hlen : name.length ≤ 50) :
    insertTag db name = Except.error DbError.uniqueViolation ∧
    step db (Op.insertTag name) = db := by
  have hany : (db.tags.any fun x => x.2.name == name) = true := by
    rw [List.any_eq_true]
    exact ⟨(tid, tag), hmem, by simp [hname]⟩
  have herr : insertTag db name = Except.error DbError.uniqueViolation := by
    unfold insertTag
    rw [if_pos hlen, if_pos hany]
  refine ⟨herr, ?_⟩
  show orKeep db (insertTag db name) = db
  rw [herr]
  rfl

/-- Witness for C5: a second Tag named "x" is refused and the database is
unchanged. -/
theorem c5_tag_name_unique_witness :
    insertTag (DB.mk [] [] [(0, Tag.mk "x")] [] [] [] 1) "x" =
      Except.error DbError.uniqueViolation ∧
    step (DB.mk [] [] [(0, Tag.mk "x")] [] [] [] 1) (Op.insertTag "x") =
      DB.mk [] [] [(0, Tag.mk "x")] [] [] [] 1 :=
  c5_tag_name_unique (DB.mk [] [] [(0, Tag.mk "x")] [] [] [] 1) "x" 0
    (Tag.mk "x") (by simp) rfl (by decide)

/-- Claim C7: the schema declares no non-negativity constraint on
`Product.price` or `Order.total`: a negative amount within ten digits and
two fractional digits passes the declared decimal constraint, and both the
Product INSERT and the Order INSERT accept it. -/
theorem c7_negative_amounts_allowed :
    ∃ v : Int, v < 0 ∧ decimalOk v = true ∧
      (∃ db', insertProduct emptyDB "Widget" "d" v 0 = Except.ok db') ∧
      (∃ db',
        insertOrder (DB.mk [] [] [] [] [(0, Product.mk "Widget" "d" v 0)] [] 1)
          7 "alice" v 0 = Except.ok db') := by
  refine ⟨-100, by decide, by decide,
    ⟨DB.mk [] [] [] [] [(0, Product.mk "Widget" "d" (-100) 0)] [] 1, rfl⟩,
    ⟨DB.mk [] [] [] [] [(0, Product.mk "Widget" "d" (-100) 0)]
      [(1, Order.mk "alice" 7 (-100) 0)] 2, rfl⟩⟩

/-- Claim C9: in every database state reachable by the ORM-derived
operations from the empty database, every Comment's `post` reference (a
non-nullable column in the model) is the id of a stored Post and every
Order's `product` reference is the id of a stored Product. -/
theorem c9_foreign_keys_valid (ops : List Op) : Inv (run emptyDB ops) := by
  have hstart : Inv emptyDB := by
    constructor <;> intro x hx <;> cases hx
  have hrun : ∀ (l : List Op) (db : DB), Inv db → Inv (run db l) := by
    intro l
    induction l with
    | nil => intro db h; exact h
    | cons op rest ih =>
        intro db h
        exact ih (step db op) (step_inv db op h)
  exact hrun ops emptyDB hstart

end LazyDjango
